import Mathlib

/-!
Verification of the acestream/medialibrary core against its specification.

The definitions below are a shallow embedding of the C++ sources:
pure functions become Lean functions, stateful code becomes explicit
state passing, machine integers become Nat, fallible code returns
Option/Except.  Definitions marked "Modelled from the spec" embed code
of the repository that is not part of the provided sources (only its
tests or callers are); they follow the specification text.
-/

namespace MediaLib

/-! ## Supported extensions and extension lookup (MediaLibrary.cpp)

Embedding of the static whitelist and of
MediaLibrary::isExtensionSupported, which runs std::binary_search over
the whitelist using strcasecmp as the ordering. -/

/-- ASCII tolower, as applied by strcasecmp to each character. -/
def lowerChar (c : Char) : Char :=
  if 'A' ≤ c ∧ c ≤ 'Z' then Char.ofNat (c.toNat + 32) else c

/-- Case folding of a whole string: strcasecmp compares the tolower
images of the two strings. -/
def lowerStr (s : String) : String := String.mk (s.data.map lowerChar)

/-- Lexicographic comparison of two character lists, the order in which
strcasecmp compares the folded strings (executable mirror of the
lexicographic order on strings). -/
def listLtB : List Char → List Char → Bool
  | _, [] => false
  | [], _ :: _ => true
  | a :: as, b :: bs =>
    if a < b then true else if b < a then false else listLtB as bs

/-- The comparator passed to std::binary_search: strcasecmp(l, r) < 0. -/
def caseLt (a b : String) : Bool := listLtB (lowerStr a).data (lowerStr b).data

/-- MediaLibrary::supportedExtensions, in source order ("Extensions
MUST be ordered alphabeticaly!"). -/
def supportedExtensions : List String := [
  "3gp", "a52", "aac", "ac3", "acelive", "aif", "aifc", "aiff", "alac", "amr",
  "amv", "aob", "ape", "asf", "asx", "avi", "b4s", "conf",
  "divx", "dts", "dv", "flac", "flv", "gxf", "ifo", "iso",
  "it", "itml", "m1v", "m2t", "m2ts", "m2v", "m3u", "m3u8",
  "m4a", "m4b", "m4p", "m4v", "mid", "mka", "mkv", "mlp",
  "mod", "mov", "mp1", "mp2", "mp3", "mp4", "mpc", "mpeg",
  "mpeg1", "mpeg2", "mpeg4", "mpg", "mts", "mxf", "nsv",
  "nuv", "oga", "ogg", "ogm", "ogv", "ogx", "oma", "opus",
  "pls", "ps", "qtl", "ram", "rec", "rm", "rmi", "rmvb",
  "s3m", "sdp", "spx", "tod", "torrent", "trp", "ts", "tta", "vlc",
  "vob", "voc", "vqf", "vro", "w64", "wav", "wax", "webm",
  "wma", "wmv", "wmx", "wpl", "wv", "wvx", "xa", "xm", "xspf"]

/-- std::lower_bound on the range [first, first+count) of xs: halve the
range and descend into the half that may contain the first element not
below v.  The extra fuel argument only bounds the number of iterations
(each iteration strictly shrinks count, so fuel ≥ count suffices); it
makes the function structurally recursive. -/
def lowerBoundGo (lt : String → String → Bool) (xs : List String) (v : String) :
    Nat → Nat → Nat → Nat
  | 0, first, _ => first
  | fuel + 1, first, count =>
    if 0 < count then
      let step := count / 2
      if lt (xs.getD (first + step) "") v then
        lowerBoundGo lt xs v fuel (first + step + 1) (count - step - 1)
      else
        lowerBoundGo lt xs v fuel first step
    else first

/-- The lower_bound index computed by isExtensionSupported over the
whole whitelist. -/
def extLowerBound (ext : String) : Nat :=
  lowerBoundGo caseLt supportedExtensions ext
    supportedExtensions.length 0 supportedExtensions.length

/-- MediaLibrary::isExtensionSupported: std::binary_search over the
whole whitelist with the strcasecmp comparator.  std::binary_search
returns (it != last && !comp(value, *it)) for it = lower_bound. -/
def isExtensionSupported (ext : String) : Bool :=
  decide (extLowerBound ext < supportedExtensions.length) &&
    ! caseLt ext (supportedExtensions.getD (extLowerBound ext) "")

/-- Executable strict-ascending check on adjacent entries. -/
def chainLtB : List String → Bool
  | [] => true
  | [_] => true
  | a :: b :: rest => caseLt a b && chainLtB (b :: rest)

/-! ## Search endpoints (MediaLibrary.cpp)

The entity-level queries (Media::search, Album::search, ...) live in
the entity classes, which are not part of the provided sources; they
are abstracted as an index parameter.  The guards embedded here are
the ones of MediaLibrary.cpp. -/

/-- IMedia::SubType. -/
inductive MediaSubType
  | albumTrack | movie | showEpisode | unknown
deriving DecidableEq, Repr

/-- The part of a media row that the search aggregation reads. -/
structure MediaRecord where
  id : Nat
  subType : MediaSubType
deriving DecidableEq, Repr

/-- MediaSearchAggregate: searchMedia buckets its results by
sub-type. -/
structure MediaSearchAggregate where
  tracks : List MediaRecord
  movies : List MediaRecord
  episodes : List MediaRecord
  others : List MediaRecord
deriving DecidableEq, Repr

/-- The underlying full-text indexes, one per entity kind; each maps a
pattern to the rows the index would return. -/
structure SearchIndex where
  media : String → List MediaRecord
  albums : String → List Nat
  artists : String → List Nat
  genres : String → List Nat
  playlists : String → List Nat

/-- MediaLibrary::validateSearchPattern: pattern.size() >= 3
(std::string::size counts bytes). -/
def validateSearchPattern (p : String) : Bool := decide (3 ≤ p.utf8ByteSize)

/-- MediaLibrary::searchMedia: guard, then bucket the index results by
sub-type. -/
def searchMedia (idx : SearchIndex) (title : String) : MediaSearchAggregate :=
  if validateSearchPattern title = false then ⟨[], [], [], []⟩
  else
    let tmp := idx.media title
    { tracks := tmp.filter (fun m => decide (m.subType = MediaSubType.albumTrack))
      movies := tmp.filter (fun m => decide (m.subType = MediaSubType.movie))
      episodes := tmp.filter (fun m => decide (m.subType = MediaSubType.showEpisode))
      others := tmp.filter (fun m => decide (m.subType = MediaSubType.unknown)) }

/-- MediaLibrary::searchAlbums. -/
def searchAlbums (idx : SearchIndex) (pattern : String) : List Nat :=
  if validateSearchPattern pattern = false then [] else idx.albums pattern

/-- MediaLibrary::searchArtists. -/
def searchArtists (idx : SearchIndex) (name : String) : List Nat :=
  if validateSearchPattern name = false then [] else idx.artists name

/-- MediaLibrary::searchGenre. -/
def searchGenre (idx : SearchIndex) (genre : String) : List Nat :=
  if validateSearchPattern genre = false then [] else idx.genres genre

/-- MediaLibrary::searchPlaylists. -/
def searchPlaylists (idx : SearchIndex) (name : String) : List Nat :=
  if validateSearchPattern name = false then [] else idx.playlists name

/-- SearchAggregate, as filled in by MediaLibrary::search. -/
structure SearchAggregate where
  albums : List Nat
  artists : List Nat
  genres : List Nat
  media : MediaSearchAggregate
  playlists : List Nat
deriving DecidableEq, Repr

/-- MediaLibrary::search: aggregate of all five endpoints. -/
def search (idx : SearchIndex) (pattern : String) : SearchAggregate :=
  { albums := searchAlbums idx pattern
    artists := searchArtists idx pattern
    genres := searchGenre idx pattern
    media := searchMedia idx pattern
    playlists := searchPlaylists idx pattern }

/-! ## Migration engine (MediaLibrary::updateDatabaseModel)

Pure embedding of the version dispatch: which migrations run, in which
order, and what the resulting model version and InitializeResult are.
The retry loop only matters when a migration throws; the embedded
migration bodies are the successful executions, and recreateDatabase
succeeds, leaving a fresh database at the current model. -/

/-- InitializeResult. -/
inductive InitializeResult
  | success | alreadyInitialized | failed | dbReset
deriving DecidableEq, Repr

/-- Settings::DbModelVersion. -/
def dbModelVersion : Nat := 13

/-- The individual migration bodies invoked by updateDatabaseModel, in
the order they appear in the source. -/
inductive MigAction
  | migrate3to5 | migrate5to6 | forceRescan | migrate7to8 | migrate8to9
  | migrate9to10 | migrate10to11 | recoverUnscannedFiles | migrate12to13
deriving DecidableEq, Repr

/-- MediaLibrary::updateDatabaseModel: returns the InitializeResult,
the sequence of migration actions executed, and the model version the
database ends at (the version recreateDatabase leaves for a reset, or
the version reached by the migration chain, asserted equal to
Settings::DbModelVersion before being saved). -/
def updateDatabaseModel (previousVersion : Nat) : InitializeResult × List MigAction × Nat :=
  if previousVersion < 3 ∨ dbModelVersion < previousVersion ∨ previousVersion = 4 then
    (InitializeResult.dbReset, [], dbModelVersion)
  else
    let p1 := if previousVersion = 3
      then (5, [MigAction.migrate3to5]) else (previousVersion, [])
    let p2 := if p1.1 = 5
      then (6, p1.2 ++ [MigAction.migrate5to6]) else p1
    let p3 := if p2.1 = 6
      then (7, p2.2 ++ [MigAction.forceRescan]) else p2
    let p4 := if p3.1 = 7
      then (8, p3.2 ++ [MigAction.migrate7to8]) else p3
    let q5 := if p4.1 = 8
      then (9, p4.2 ++ [MigAction.migrate8to9], true) else (p4.1, p4.2, false)
    let q6 := if q5.1 = 9
      then (10, q5.2.1 ++ [MigAction.migrate9to10], true) else q5
    let q7 := if q6.1 = 10
      then (11, q6.2.1 ++ [MigAction.migrate10to11], true) else q6
    let q8 := if q7.1 = 11
      then (12, q7.2.1 ++ [MigAction.recoverUnscannedFiles], q7.2.2) else q7
    let q9 := if q8.1 = 12
      then (13, q8.2.1 ++ [MigAction.migrate12to13], q8.2.2) else q8
    (InitializeResult.success,
     if q9.2.2 then q9.2.1 ++ [MigAction.forceRescan] else q9.2.1,
     q9.1)

/-- The migration chain with the model version each step starts
from. -/
def migChain : List (Nat × MigAction) := [
  (3, MigAction.migrate3to5), (5, MigAction.migrate5to6),
  (6, MigAction.forceRescan), (7, MigAction.migrate7to8),
  (8, MigAction.migrate8to9), (9, MigAction.migrate9to10),
  (10, MigAction.migrate10to11), (11, MigAction.recoverUnscannedFiles),
  (12, MigAction.migrate12to13)]

/-- The actions a migration starting from version v is expected to run:
the chain steps at or after v, in order, plus the final forced rescan
whenever one of the 8-to-11 steps ran. -/
def migChainFrom (v : Nat) : List MigAction :=
  (migChain.filter (fun p => decide (v ≤ p.1))).map (fun p => p.2) ++
    (if v ≤ 10 then [MigAction.forceRescan] else [])

/-- The migration part of MediaLibrary::initialize: updateDatabaseModel
runs only when the stored version differs from the current model, and
its result becomes the result of the initial setup. -/
def initMigration (stored : Nat) : InitializeResult :=
  if stored ≠ dbModelVersion then (updateDatabaseModel stored).1
  else InitializeResult.success

/-! ## Album release year (Album::setReleaseYear)

Modelled from the spec: Album.cpp is not under the provided sources
(only AlbumTests.cpp is).  Spec rule: on set_release_year(y, force),
if the current year is 0 and not latched, set it to y; if the current
year equals y, no-op; if non-forced and the current year differs from y
and is nonzero, set to 0 and latch; if forced, unconditionally set to y
and clear the latch; a latched album ignores further non-forced
values. -/

/-- The release-year state of an album: the stored year and the
conflict latch. -/
structure AlbumYearState where
  releaseYear : Nat
  latched : Bool
deriving DecidableEq, Repr

/-- A freshly created album: year 0, not latched. -/
def freshAlbum : AlbumYearState := ⟨0, false⟩

/-- Modelled from the spec: Album::setReleaseYear. -/
def setReleaseYear (a : AlbumYearState) (y : Nat) (force : Bool) : AlbumYearState :=
  if force then { releaseYear := y, latched := false }
  else if a.releaseYear = y then a
  else if a.releaseYear = 0 ∧ a.latched = false then { a with releaseYear := y }
  else if a.releaseYear ≠ 0 then { releaseYear := 0, latched := true }
  else a

/-! ## Artist media sorted by album (Artist::media, sort = Album)

Modelled from the spec: Artist.cpp is not under the provided sources
(only ArtistTests.cpp is).  Spec order for artist.media(sort=Album):
album.release_year desc, album.title asc, disc_number asc,
track_number asc, media.title asc; descending flips every
component. -/

/-- The joined row artist.media(sort=Album) orders: the media row plus
the album and album-track columns named by the ORDER BY. -/
structure TrackRow where
  mediaId : Nat
  mediaTitle : String
  releaseYear : Nat
  albumTitle : String
  discNumber : Nat
  trackNumber : Nat
deriving DecidableEq, Repr

/-- One component of a lexicographic comparison on Nat columns: strict
on inequality, fall through to the remaining columns on equality. -/
def stepNat (x y : Nat) (rest : Bool) : Bool :=
  if x < y then true else if y < x then false else rest

/-- One component of a lexicographic comparison on String columns. -/
def stepStr (x y : String) (rest : Bool) : Bool :=
  if listLtB x.data y.data then true
  else if listLtB y.data x.data then false
  else rest

/-- Executable compound comparison: row a sorts at or before row b in
the ORDER BY album.release_year DESC, album.title, disc_number,
track_number, media.title. -/
def trackLeB (a b : TrackRow) : Bool :=
  stepNat b.releaseYear a.releaseYear
    (stepStr a.albumTitle b.albumTitle
      (stepNat a.discNumber b.discNumber
        (stepNat a.trackNumber b.trackNumber
          (stepStr a.mediaTitle b.mediaTitle true))))

/-- The compound key order of the spec, as a proposition. -/
def trackLe (a b : TrackRow) : Prop :=
  b.releaseYear < a.releaseYear ∨ (b.releaseYear = a.releaseYear ∧
    (a.albumTitle < b.albumTitle ∨ (a.albumTitle = b.albumTitle ∧
      (a.discNumber < b.discNumber ∨ (a.discNumber = b.discNumber ∧
        (a.trackNumber < b.trackNumber ∨ (a.trackNumber = b.trackNumber ∧
          a.mediaTitle ≤ b.mediaTitle)))))))

/-- Modelled from the spec: Artist::media with sort = Album returns the
artist's joined rows sorted by the compound key; descending flips every
component of the ORDER BY. -/
def artistMediaSortAlbum (tracks : List TrackRow) (desc : Bool) : List TrackRow :=
  if desc then List.insertionSort (fun a b => trackLeB b a = true) tracks
  else List.insertionSort (fun a b => trackLeB a b = true) tracks

/-- The multi-disc scenario: one album, three discs of two tracks each,
inserted interleaved disc-first. -/
def multiDiscTracks : List TrackRow := [
  ⟨1, "D1T1", 2000, "album", 1, 1⟩, ⟨2, "D2T1", 2000, "album", 2, 1⟩,
  ⟨3, "D3T1", 2000, "album", 3, 1⟩, ⟨4, "D1T2", 2000, "album", 1, 2⟩,
  ⟨5, "D2T2", 2000, "album", 2, 2⟩, ⟨6, "D3T2", 2000, "album", 3, 2⟩]

/-- The expected ascending order: discs grouped, tracks in order inside
each disc. -/
def multiDiscSorted : List TrackRow := [
  ⟨1, "D1T1", 2000, "album", 1, 1⟩, ⟨4, "D1T2", 2000, "album", 1, 2⟩,
  ⟨2, "D2T1", 2000, "album", 2, 1⟩, ⟨5, "D2T2", 2000, "album", 2, 2⟩,
  ⟨3, "D3T1", 2000, "album", 3, 1⟩, ⟨6, "D3T2", 2000, "album", 3, 2⟩]

/-! ## Unknown album (Artist::unknownAlbum, Album::search)

Modelled from the spec: Artist.cpp and Album.cpp are not under the
provided sources.  An artist's unknown album is its album row with
NULL title, created on first request; the full-text index only holds
album titles, so an album without a title can never match a search. -/

/-- An album row: id, optional title (NULL for unknown albums), owning
artist. -/
structure AlbumRow where
  id : Nat
  title : Option String
  artistId : Option Nat
deriving DecidableEq, Repr

/-- The persisted album table plus the id allocator. -/
structure AlbumsState where
  albums : List AlbumRow
  nextAlbumId : Nat
deriving DecidableEq, Repr

/-- The row predicate identifying an artist's unknown album. -/
def isUnknownAlbumOf (artistId : Nat) (a : AlbumRow) : Bool :=
  decide (a.artistId = some artistId) && decide (a.title = none)

/-- Modelled from the spec: Artist::unknownAlbum returns the artist's
NULL-titled album, creating it if it does not exist yet. -/
def unknownAlbum (s : AlbumsState) (artistId : Nat) : AlbumRow × AlbumsState :=
  match s.albums.find? (isUnknownAlbumOf artistId) with
  | some a => (a, s)
  | none =>
    let a : AlbumRow := ⟨s.nextAlbumId, none, some artistId⟩
    (a, { albums := s.albums ++ [a], nextAlbumId := s.nextAlbumId + 1 })

/-- Modelled from the spec: MediaLibrary::searchAlbums over this album
table — the short-pattern guard, then the full-text match on titles;
rows with a NULL title are not in the index.  matcher abstracts the
FTS MATCH operator. -/
def albumSearch (s : AlbumsState) (matcher : String → String → Bool)
    (pattern : String) : List AlbumRow :=
  if validateSearchPattern pattern = false then []
  else s.albums.filter (fun a => match a.title with
    | some t => matcher pattern t
    | none => false)

/-! ## Well-known artists across the catalog lifecycle
(MediaLibrary::createAllTables, MediaLibrary::forceRescan)

The catalog state keeps the tables relevant to the invariant; the
artist auto-delete trigger is modelled from the spec (Artist.cpp is
not under the provided sources): an artist with zero tracks and zero
albums is deleted, except the two well-known rows. -/

/-- An artist row with the aggregate counters the trigger reads. -/
structure ArtistRow where
  id : Nat
  name : String
  nbAlbums : Nat
  nbTracks : Nat
deriving DecidableEq, Repr

/-- Modelled from the spec: Artist::createDefaultArtists — the two
well-known artists with reserved ids, created with the tables. -/
def defaultArtists : List ArtistRow :=
  [⟨1, "Unknown Artist", 0, 0⟩, ⟨2, "Various Artists", 0, 0⟩]

/-- The catalog tables involved in forceRescan and the artist
invariant.  media and devices stand for the tables forceRescan
preserves. -/
structure CatalogState where
  artists : List ArtistRow
  albums : List Nat
  albumTracks : List Nat
  genres : List Nat
  movies : List Nat
  shows : List Nat
  showEpisodes : List Nat
  videoTracks : List Nat
  audioTracks : List Nat
  media : List Nat
  devices : List Nat
deriving DecidableEq, Repr

/-- MediaLibrary::createAllTables on a fresh database: empty tables
plus Artist::createDefaultArtists. -/
def createAllTables : CatalogState :=
  { artists := defaultArtists, albums := [], albumTracks := [], genres := []
    movies := [], shows := [], showEpisodes := [], videoTracks := []
    audioTracks := [], media := [], devices := [] }

/-- MediaLibrary::forceRescan: one transaction deletes every metadata
row — including all Artist rows — and recreates the default artists
before the commit, so no commit ever exposes a catalog without
them. -/
def forceRescan (s : CatalogState) : CatalogState :=
  { s with albumTracks := [], genres := [], albums := []
           artists := defaultArtists, movies := [], showEpisodes := []
           shows := [], videoTracks := [], audioTracks := [] }

/-- Modelled from the spec: the Artist delete trigger removes artists
whose track and album counters are both zero, except the well-known
rows. -/
def artistDeleteTrigger (artists : List ArtistRow) : List ArtistRow :=
  artists.filter (fun a =>
    decide (a.id = 1) || decide (a.id = 2) ||
    decide (0 < a.nbAlbums) || decide (0 < a.nbTracks))

/-- The public operations that touch the artist table. -/
inductive CatalogOp
  | createArtist (a : ArtistRow)
  | setArtistCounts (id na nt : Nat)
  | deleteTrigger
  | addMedia (id : Nat)
  | deleteMedia (id : Nat)
  | forceRescan
  | reinit
deriving Repr

/-- One public operation on the catalog.  deleteMedia cascades through
the triggers, which may auto-delete artists that lost their last
track; reinit is clearCache followed by forceRescan (the cache is not
part of the persistent state). -/
def applyOp (s : CatalogState) : CatalogOp → CatalogState
  | CatalogOp.createArtist a => { s with artists := s.artists ++ [a] }
  | CatalogOp.setArtistCounts id na nt =>
    { s with artists := s.artists.map (fun a =>
        if a.id = id then { a with nbAlbums := na, nbTracks := nt } else a) }
  | CatalogOp.deleteTrigger => { s with artists := artistDeleteTrigger s.artists }
  | CatalogOp.addMedia id => { s with media := s.media ++ [id] }
  | CatalogOp.deleteMedia id =>
    { s with media := s.media.erase id, artists := artistDeleteTrigger s.artists }
  | CatalogOp.forceRescan => forceRescan s
  | CatalogOp.reinit => forceRescan s

/-- A sequence of public operations. -/
def applyOps (s : CatalogState) (ops : List CatalogOp) : CatalogState :=
  ops.foldl applyOp s

/-- The invariant: both well-known artist rows exist. -/
def wellKnownPresent (s : CatalogState) : Prop :=
  (∃ a ∈ s.artists, a.id = 1 ∧ a.name = "Unknown Artist") ∧
  (∃ a ∈ s.artists, a.id = 2 ∧ a.name = "Various Artists")

/-! ## addMedia / addP2PMedia atomicity (MediaLibrary.cpp)

Both run inside a transaction; an early nullptr return leaves the
transaction uncommitted, so it rolls back and the database is
unchanged.  Media::create and Media::addExternalMrl are fallible
insertions; the ok flags model their failure (the code checks their
nullptr results). -/

/-- IFile::Type. -/
inductive FileType
  | main | part | soundtrack | subtitle | playlistFile | external
deriving DecidableEq, Repr

/-- A media row with the fields addP2PMedia writes. -/
structure MediaRow where
  id : Nat
  mtype : Nat
  title : String
  parentMediaId : Option Int
  isP2P : Bool
deriving DecidableEq, Repr

/-- A file row. -/
structure FileRow where
  id : Nat
  mediaId : Nat
  mrl : String
  ftype : FileType
  isExternal : Bool
deriving DecidableEq, Repr

/-- The media/file tables plus the id allocators. -/
structure MediaDb where
  media : List MediaRow
  files : List FileRow
  nextMediaId : Nat
  nextFileId : Nat
deriving DecidableEq, Repr

/-- IMedia::Type::External as its raw code. -/
def externalType : Nat := 3

/-- utils::file::fileName: the component after the last '/'. -/
def fileName (mrl : String) : String :=
  String.mk (mrl.data.foldl (fun acc c => if c = '/' then [] else acc ++ [c]) [])

/-- Media::create: inserts a media row and returns it, or returns
nullptr (ok = false) on an insertion failure. -/
def mediaCreate (db : MediaDb) (mtype : Nat) (title : String) (ok : Bool) :
    Option (MediaRow × MediaDb) :=
  if ok then
    let m : MediaRow := ⟨db.nextMediaId, mtype, title, none, false⟩
    some (m, { db with media := db.media ++ [m], nextMediaId := db.nextMediaId + 1 })
  else none

/-- Media::addExternalMrl: inserts the external file row for a media,
or returns nullptr (ok = false) on an insertion failure. -/
def addExternalMrl (db : MediaDb) (mediaId : Nat) (mrl : String) (ftype : FileType)
    (ok : Bool) : Option (FileRow × MediaDb) :=
  if ok then
    let f : FileRow := ⟨db.nextFileId, mediaId, mrl, ftype, true⟩
    some (f, { db with files := db.files ++ [f], nextFileId := db.nextFileId + 1 })
  else none

/-- Media::save: persists the in-memory row over the stored one. -/
def mediaSave (db : MediaDb) (m : MediaRow) : MediaDb :=
  { db with media := db.media.map (fun x => if x.id = m.id then m else x) }

/-- MediaLibrary::addMedia: transaction; Media::create, then
addExternalMrl(mrl, Main), then commit.  Early nullptr returns roll
the transaction back to the entry state. -/
def addMedia (db : MediaDb) (mrl : String) (createOk addOk : Bool) :
    Option MediaRow × MediaDb :=
  match mediaCreate db externalType (fileName mrl) createOk with
  | none => (none, db)
  | some (m, db1) =>
    match addExternalMrl db1 m.id mrl FileType.main addOk with
    | none => (none, db)
    | some (_, db2) => (some m, db2)

/-- MediaLibrary::addP2PMedia: transaction; Media::create, then
setParentMediaId / setP2P / save, then addExternalMrl(mrl, Main), then
commit.  Early nullptr returns roll back. -/
def addP2PMedia (db : MediaDb) (parentMediaId : Int) (mtype : Nat)
    (title mrl : String) (createOk addOk : Bool) : Option MediaRow × MediaDb :=
  match mediaCreate db mtype title createOk with
  | none => (none, db)
  | some (m0, db1) =>
    let m := { m0 with parentMediaId := some parentMediaId, isP2P := true }
    let db2 := mediaSave db1 m
    match addExternalMrl db2 m.id mrl FileType.main addOk with
    | none => (none, db)
    | some (_, db3) => (some m, db3)

/-! ## Device plug and unplug (MediaLibrary.cpp)

The filesystem factories are abstracted: supportsFileMrl is
isMrlSupported("file://"), and device uuid returns the fs-side device
presence when createDevice succeeds, none when it returns nullptr.
asserts are modelled as executed: evaluating a member of a null device
is an invalid access, and a false assertion aborts. -/

/-- A Device table row. -/
structure DeviceRow where
  uuid : String
  isRemovable : Bool
  isPresent : Bool
deriving DecidableEq, Repr

/-- An fs factory, reduced to what the device callbacks consult. -/
structure FsFactoryM where
  supportsFileMrl : Bool
  device : String → Option Bool

/-- The Device table. -/
structure DeviceState where
  devices : List DeviceRow
deriving DecidableEq, Repr

/-- Device::fromUuid. -/
def deviceFromUuid (s : DeviceState) (uuid : String) : Option DeviceRow :=
  s.devices.find? (fun d => d.uuid == uuid)

/-- Device::setPresent on the row with the given uuid. -/
def setDevicePresent (s : DeviceState) (uuid : String) (p : Bool) : DeviceState :=
  ⟨s.devices.map (fun d => if d.uuid == uuid then { d with isPresent := p } else d)⟩

/-- MediaLibrary::refreshDevices for one factory: every catalogued
device becomes present iff the factory resolves it and reports it
present. -/
def refreshDevices (f : FsFactoryM) (s : DeviceState) : DeviceState :=
  ⟨s.devices.map (fun d => { d with isPresent := (f.device d.uuid).getD false })⟩

/-- How a device callback can abort: dereferencing a null device
record, or a failed assert. -/
inductive AbortReason
  | nullDeref | assertFailed
deriving DecidableEq, Repr

/-- The factory loop of onDevicePlugged: handle the first factory
supporting file:// and break.  When the factory resolves the device,
assert(deviceFs->isPresent() == false), mark the fs device present,
and mark the catalog row present when one exists; otherwise refresh
every device from the factory. -/
def pluggedLoop (fs : List FsFactoryM) (s : DeviceState) (uuid : String)
    (currentKnown : Bool) : Except AbortReason DeviceState :=
  match fs with
  | [] => Except.ok s
  | f :: rest =>
    if f.supportsFileMrl then
      match f.device uuid with
      | some fsPresent =>
        if fsPresent then Except.error AbortReason.assertFailed
        else Except.ok (if currentKnown then setDevicePresent s uuid true else s)
      | none => Except.ok (refreshDevices f s)
    else pluggedLoop rest s uuid currentKnown

/-- MediaLibrary::onDevicePlugged: fetch the current row, run the
factory loop, return whether the device was previously unknown. -/
def onDevicePlugged (fs : List FsFactoryM) (s : DeviceState) (uuid : String) :
    Except AbortReason (Bool × DeviceState) :=
  match pluggedLoop fs s uuid (deviceFromUuid s uuid).isSome with
  | Except.error e => Except.error e
  | Except.ok s' => Except.ok ((deviceFromUuid s uuid).isNone, s')

/-- Device::fromUuid of the first file-supporting factory, used to
state when onDevicePlugged can mark the row present. -/
def firstFileFactory (fs : List FsFactoryM) : Option FsFactoryM :=
  fs.find? (fun f => f.supportsFileMrl)

/-- The factory loop of onDeviceUnplugged: every factory supporting
file:// is consulted (no break).  When the factory resolves the
device, assert(deviceFs->isPresent() == true) and mark the catalog row
absent; otherwise refresh from the factory. -/
def unpluggedLoop (fs : List FsFactoryM) (s : DeviceState) (uuid : String) :
    Except AbortReason DeviceState :=
  match fs with
  | [] => Except.ok s
  | f :: rest =>
    if f.supportsFileMrl then
      match f.device uuid with
      | some fsPresent =>
        if fsPresent then unpluggedLoop rest (setDevicePresent s uuid false) uuid
        else Except.error AbortReason.assertFailed
      | none => unpluggedLoop rest (refreshDevices f s) uuid
    else unpluggedLoop rest s uuid

/-- MediaLibrary::onDeviceUnplugged: fetch the row, then
assert(device->isRemovable() == true) — which dereferences the device
BEFORE the null check guarding the ignore branch — then, for a known
removable device, run the factory loop. -/
def onDeviceUnplugged (fs : List FsFactoryM) (s : DeviceState) (uuid : String) :
    Except AbortReason DeviceState :=
  match deviceFromUuid s uuid with
  | none => Except.error AbortReason.nullDeref
  | some d =>
    if d.isRemovable then unpluggedLoop fs s uuid
    else Except.error AbortReason.assertFailed

/-! ## Concrete fixtures used by the witness theorems -/

/-- A search index with non-empty results for every pattern, showing
that short-pattern emptiness comes from the guard, not the index. -/
def probeIndex : SearchIndex :=
  ⟨fun _ => [⟨1, MediaSubType.albumTrack⟩], fun _ => [1], fun _ => [2],
   fun _ => [3], fun _ => [4]⟩

/-- An empty media database. -/
def emptyMediaDb : MediaDb := ⟨[], [], 0, 0⟩

/-- A factory supporting file:// that resolves every device, fs-side
absent. -/
def plugFactoryKnown : FsFactoryM := ⟨true, fun _ => some false⟩

/-- A catalog with the removable device "usb-1" marked absent. -/
def plugStateKnown : DeviceState := ⟨[⟨"usb-1", true, false⟩]⟩

/-- A factory supporting file:// whose createDevice returns nullptr for
every uuid. -/
def cexFactory : FsFactoryM := ⟨true, fun _ => none⟩

/-- A catalog with the removable device "usb-1" marked present. -/
def cexState : DeviceState := ⟨[⟨"usb-1", true, true⟩]⟩

end MediaLib

namespace MediaLib

/-! ## Theorems -/

/-- The executable list comparison agrees with the lexicographic order
used by the String linear order. -/
theorem listLtB_iff (as : List Char) : ∀ bs,
    listLtB as bs = true ↔ List.Lex (· < ·) as bs := by
  induction as with
  | nil =>
    intro bs
    cases bs with
    | nil =>
      simp only [listLtB]
      exact iff_of_false (by simp) (by intro h; cases h)
    | cons b bs => exact ⟨fun _ => List.Lex.nil, fun _ => rfl⟩
  | cons a as ih =>
    intro bs
    cases bs with
    | nil =>
      simp only [listLtB]
      exact iff_of_false (by simp) (by intro h; cases h)
    | cons b bs =>
      by_cases h1 : a < b
      · simp only [listLtB, if_pos h1]
        exact ⟨fun _ => List.Lex.rel h1, fun _ => by trivial⟩
      · by_cases h2 : b < a
        · simp only [listLtB, if_neg h1, if_pos h2]
          refine iff_of_false (by simp) ?_
          intro h
          cases h with
          | rel h' => exact h1 h'
          | cons h' => exact lt_irrefl _ h2
        · have hab : a = b := le_antisymm (not_lt.mp h2) (not_lt.mp h1)
          subst hab
          simp only [listLtB, if_neg h1, if_neg h2]
          constructor
          · intro h
            exact List.Lex.cons ((ih bs).mp h)
          · intro h
            cases h with
            | rel h' => exact absurd h' h1
            | cons h' => exact (ih bs).mpr h'

/-- caseLt decides the strict case-insensitive order on strings. -/
theorem caseLt_iff (a b : String) :
    caseLt a b = true ↔ lowerStr a < lowerStr b := by
  rw [String.lt_iff_toList_lt]
  have : (lowerStr a).toList < (lowerStr b).toList ↔
      List.Lex (· < ·) (lowerStr a).data (lowerStr b).data := Iff.rfl
  rw [this]
  exact listLtB_iff _ _

/-- The executable adjacent check implies the Chain' form of strict
case-insensitive sortedness. -/
theorem chainLtB_chain' : ∀ xs, chainLtB xs = true →
    List.Chain' (fun a b => lowerStr a < lowerStr b) xs := by
  intro xs
  induction xs with
  | nil => intro _; exact List.chain'_nil
  | cons a rest ih =>
    cases rest with
    | nil => intro _; simp
    | cons b rest' =>
      intro h
      rcases Bool.and_eq_true_iff.mp h with ⟨h1, h2⟩
      exact List.Chain'.cons ((caseLt_iff a b).mp h1) (ih h2)

/-- Strict case-insensitive order between adjacent entries lifts to any
pair of positions, by transitivity. -/
theorem pairwise_of_chain (xs : List String)
    (h : List.Chain' (fun a b => lowerStr a < lowerStr b) xs) :
    ∀ i j, i < j → j < xs.length →
      lowerStr (xs.getD i "") < lowerStr (xs.getD j "") := by
  have hp : List.Pairwise (fun a b => lowerStr a < lowerStr b) xs := by
    have : IsTrans String (fun a b => lowerStr a < lowerStr b) :=
      ⟨fun _ _ _ hab hbc => lt_trans hab hbc⟩
    exact List.chain'_iff_pairwise.mp h
  intro i j hij hj
  have hi : i < xs.length := lt_trans hij hj
  rw [List.getD_eq_getElem xs "" hi, List.getD_eq_getElem xs "" hj]
  exact List.pairwise_iff_getElem.mp hp i j hi hj hij

/-- Specification of the embedded std::lower_bound: if everything
strictly before the range is below v and everything at or after the
range is not below v, the returned index splits the whole list at the
first entry not below v. -/
theorem lowerBoundGo_spec (xs : List String) (v : String)
    (hsorted : ∀ i j, i < j → j < xs.length →
      lowerStr (xs.getD i "") < lowerStr (xs.getD j "")) :
    ∀ fuel count first, count ≤ fuel → first + count ≤ xs.length →
    (∀ j, j < first → lowerStr (xs.getD j "") < lowerStr v) →
    (∀ j, first + count ≤ j → j < xs.length →
        ¬ lowerStr (xs.getD j "") < lowerStr v) →
    (lowerBoundGo caseLt xs v fuel first count ≤ xs.length ∧
     (∀ j, j < lowerBoundGo caseLt xs v fuel first count →
        lowerStr (xs.getD j "") < lowerStr v) ∧
     (∀ j, lowerBoundGo caseLt xs v fuel first count ≤ j → j < xs.length →
        ¬ lowerStr (xs.getD j "") < lowerStr v)) := by
  intro fuel
  induction fuel with
  | zero =>
    intro count first hfc hlen hlo hhi
    have hc0 : count = 0 := by omega
    subst hc0
    simp only [lowerBoundGo]
    exact ⟨by omega, hlo, fun j hj hj' => hhi j (by omega) hj'⟩
  | succ fuel ih =>
    intro count first hfc hlen hlo hhi
    simp only [lowerBoundGo]
    by_cases hc : 0 < count
    · simp only [if_pos hc]
      have hstep_lt : count / 2 < count := Nat.div_lt_self hc (by omega)
      have hmid : first + count / 2 < xs.length := by omega
      by_cases hltv : caseLt (xs.getD (first + count / 2) "") v = true
      · simp only [hltv, if_true]
        have hmidlt : lowerStr (xs.getD (first + count / 2) "") < lowerStr v :=
          (caseLt_iff _ _).mp hltv
        refine ih (count - count / 2 - 1) (first + count / 2 + 1) (by omega) (by omega) ?_ ?_
        · intro j hj
          rcases Nat.lt_or_ge j (first + count / 2) with hj' | hj'
          · exact lt_trans (hsorted j (first + count / 2) hj' hmid) hmidlt
          · have : j = first + count / 2 := by omega
            rw [this]; exact hmidlt
        · intro j hj hj'
          exact hhi j (by omega) hj'
      · simp only [hltv, if_false]
        have hmidge : ¬ lowerStr (xs.getD (first + count / 2) "") < lowerStr v := by
          intro hcon
          exact hltv ((caseLt_iff _ _).mpr hcon)
        refine ih (count / 2) first (by omega) (by omega) hlo ?_
        intro j hj hj'
        rcases Nat.eq_or_lt_of_le hj with he | hl
        · intro hcon; apply hmidge; rw [he]; exact hcon
        · intro hcon
          exact hmidge (lt_trans (hsorted (first + count / 2) j hl hj') hcon)
    · simp only [if_neg hc]
      have hc0 : count = 0 := by omega
      exact ⟨by omega, hlo, fun j hj hj' => hhi j (by omega) hj'⟩

/-- The whitelist passes the executable strict-ascending check. -/
theorem supportedExtensions_chainB : chainLtB supportedExtensions = true := by
  decide

/-- The whitelist is strictly ascending in the case-insensitive
order. -/
theorem supportedExtensions_sorted :
    List.Chain' (fun a b => lowerStr a < lowerStr b) supportedExtensions :=
  chainLtB_chain' _ supportedExtensions_chainB

/-- Binary-search correctness for the extension whitelist: a positive
lookup is exactly case-insensitive membership. -/
theorem isExtensionSupported_iff (ext : String) :
    isExtensionSupported ext = true ↔
      ∃ e ∈ supportedExtensions, lowerStr e = lowerStr ext := by
  have hsorted := pairwise_of_chain supportedExtensions supportedExtensions_sorted
  have hspec := lowerBoundGo_spec supportedExtensions ext hsorted
      supportedExtensions.length supportedExtensions.length 0 (le_refl _) (by omega)
      (fun j hj => absurd hj (Nat.not_lt_zero j))
      (fun j hj hj' => absurd (Nat.lt_of_lt_of_le hj' hj) (lt_irrefl _))
  rw [show lowerBoundGo caseLt supportedExtensions ext
      supportedExtensions.length 0 supportedExtensions.length = extLowerBound ext from rfl]
    at hspec
  obtain ⟨hile, hbelow, habove⟩ := hspec
  constructor
  · intro h
    rcases Bool.and_eq_true_iff.mp h with ⟨h1, h2⟩
    have hilt : extLowerBound ext < supportedExtensions.length := of_decide_eq_true h1
    have hnotlt : ¬ lowerStr ext <
        lowerStr (supportedExtensions.getD (extLowerBound ext) "") := by
      intro hcon
      rw [Bool.not_eq_eq_eq_not, Bool.not_true] at h2
      have htrue := (caseLt_iff _ _).mpr hcon
      rw [h2] at htrue
      exact Bool.false_ne_true htrue
    have hnotlt' : ¬ lowerStr (supportedExtensions.getD (extLowerBound ext) "") <
        lowerStr ext := habove _ (le_refl _) hilt
    refine ⟨supportedExtensions.getD (extLowerBound ext) "", ?_,
      le_antisymm (not_lt.mp hnotlt) (not_lt.mp hnotlt')⟩
    rw [List.getD_eq_getElem supportedExtensions "" hilt]
    exact List.getElem_mem hilt
  · rintro ⟨e, hmem, heq⟩
    obtain ⟨j, hj, hje⟩ := List.mem_iff_getElem.mp hmem
    have hjD : supportedExtensions.getD j "" = e := by
      rw [List.getD_eq_getElem supportedExtensions "" hj, hje]
    have hji : extLowerBound ext ≤ j := by
      by_contra hcon
      have := hbelow j (by omega)
      rw [hjD, heq] at this
      exact absurd this (lt_irrefl _)
    have hilt : extLowerBound ext < supportedExtensions.length := lt_of_le_of_lt hji hj
    have hnotlt : ¬ lowerStr (supportedExtensions.getD (extLowerBound ext) "") <
        lowerStr ext := habove _ (le_refl _) hilt
    have hinotgt : ¬ lowerStr ext <
        lowerStr (supportedExtensions.getD (extLowerBound ext) "") := by
      intro hcon
      rcases Nat.eq_or_lt_of_le hji with he | hl
      · rw [he, hjD, heq] at hcon
        exact absurd hcon (lt_irrefl _)
      · have := hsorted (extLowerBound ext) j hl hj
        rw [hjD, heq] at this
        exact absurd (lt_trans hcon this) (lt_irrefl _)
    refine Bool.and_eq_true_iff.mpr ⟨decide_eq_true hilt, ?_⟩
    rw [Bool.not_eq_eq_eq_not, Bool.not_true]
    exact Bool.eq_false_iff.mpr (fun hcon => hinotgt ((caseLt_iff _ _).mp hcon))

/-- C5: the supported-extensions whitelist is sorted in strictly
ascending case-insensitive order, and isExtensionSupported — a binary
search using strcasecmp as the ordering — returns true exactly for the
strings case-insensitively equal to an entry; in particular it accepts
"MKV" and rejects an extension that is not in the list. -/
theorem extension_whitelist_binary_search :
    List.Chain' (fun a b => lowerStr a < lowerStr b) supportedExtensions ∧
    (∀ ext, isExtensionSupported ext = true ↔
      ∃ e ∈ supportedExtensions, lowerStr e = lowerStr ext) ∧
    isExtensionSupported "MKV" = true ∧
    isExtensionSupported "xyz" = false := by
  refine ⟨supportedExtensions_sorted, isExtensionSupported_iff, by decide, by decide⟩

/-- C4: every search endpoint returns empty results for a pattern
shorter than 3 bytes, whatever the underlying index would return, and
the aggregate search result is empty in every component. -/
theorem short_pattern_search_empty (idx : SearchIndex) (p : String)
    (hshort : p.utf8ByteSize < 3) :
    searchMedia idx p = ⟨[], [], [], []⟩ ∧
    searchAlbums idx p = [] ∧
    searchArtists idx p = [] ∧
    searchGenre idx p = [] ∧
    searchPlaylists idx p = [] ∧
    search idx p = ⟨[], [], [], ⟨[], [], [], []⟩, []⟩ := by
  have hval : validateSearchPattern p = false := by
    rw [validateSearchPattern, decide_eq_false_iff_not]
    omega
  refine ⟨?_, ?_, ?_, ?_, ?_, ?_⟩ <;>
    simp [searchMedia, searchAlbums, searchArtists, searchGenre, searchPlaylists,
      search, hval]

/-- C4 witness: the guard fires on the concrete two-byte pattern "ab"
even against an index that returns results for every pattern. -/
theorem short_pattern_search_empty_witness :
    "ab".utf8ByteSize < 3 ∧
    search probeIndex "ab" = ⟨[], [], [], ⟨[], [], [], []⟩, []⟩ :=
  ⟨by decide, (short_pattern_search_empty probeIndex "ab" (by decide)).2.2.2.2.2⟩

/-- C3: a stored model version above the current model (13), below 3,
or equal to 4 runs no migration step — the database is dropped and
recreated and initialization reports DbReset; every other version
between 3 and 13 runs exactly the migration chain from that version, in
order, and ends with the stored version equal to 13. -/
theorem migration_version_dispatch (v : Nat) :
    ((v < 3 ∨ dbModelVersion < v ∨ v = 4) →
      updateDatabaseModel v = (InitializeResult.dbReset, [], dbModelVersion) ∧
      initMigration v = InitializeResult.dbReset) ∧
    (3 ≤ v → v ≤ dbModelVersion → v ≠ 4 →
      (updateDatabaseModel v).1 = InitializeResult.success ∧
      (updateDatabaseModel v).2.2 = dbModelVersion ∧
      (updateDatabaseModel v).2.1 = migChainFrom v) := by
  constructor
  · intro h
    have hv : v ≠ dbModelVersion := by
      rw [dbModelVersion] at h ⊢
      omega
    constructor
    · rw [updateDatabaseModel, if_pos h]
    · rw [initMigration, if_pos hv, updateDatabaseModel, if_pos h]
  · intro h1 h2 h3
    rw [dbModelVersion] at h2
    interval_cases v
    · exact ⟨rfl, rfl, rfl⟩
    · exact absurd rfl h3
    · exact ⟨rfl, rfl, rfl⟩
    · exact ⟨rfl, rfl, rfl⟩
    · exact ⟨rfl, rfl, rfl⟩
    · exact ⟨rfl, rfl, rfl⟩
    · exact ⟨rfl, rfl, rfl⟩
    · exact ⟨rfl, rfl, rfl⟩
    · exact ⟨rfl, rfl, rfl⟩
    · exact ⟨rfl, rfl, rfl⟩
    · exact ⟨rfl, rfl, rfl⟩

/-- C3 witness: the dispatch evaluated at the concrete stored versions
14 (downgrade) and 8 (migration chain 8 → 13 plus final rescan). -/
theorem migration_version_dispatch_witness :
    (updateDatabaseModel 14 = (InitializeResult.dbReset, [], dbModelVersion) ∧
      initMigration 14 = InitializeResult.dbReset) ∧
    ((updateDatabaseModel 8).1 = InitializeResult.success ∧
      (updateDatabaseModel 8).2.2 = dbModelVersion ∧
      (updateDatabaseModel 8).2.1 = migChainFrom 8) :=
  ⟨(migration_version_dispatch 14).1 (by decide),
   (migration_version_dispatch 8).2 (by decide) (by decide) (by decide)⟩

/-- C1: the release-year latching rule — the first non-forced call on a
fresh album stores its argument; a non-forced call with a conflicting
nonzero current year resets to 0 and latches; once latched, non-forced
calls leave the year at 0; a forced call stores its argument
unconditionally; and the concrete sequence of the spec yields
1234, 0, 0, 9876. -/
theorem release_year_latching :
    (∀ y, (setReleaseYear freshAlbum y false).releaseYear = y) ∧
    (∀ a y, a.releaseYear ≠ 0 → y ≠ a.releaseYear →
      setReleaseYear a y false = ⟨0, true⟩) ∧
    (∀ y, (setReleaseYear ⟨0, true⟩ y false).releaseYear = 0) ∧
    (∀ a y, setReleaseYear a y true = ⟨y, false⟩) ∧
    ((setReleaseYear freshAlbum 1234 false).releaseYear = 1234 ∧
     (setReleaseYear (setReleaseYear freshAlbum 1234 false) 4321 false).releaseYear = 0 ∧
     (setReleaseYear (setReleaseYear (setReleaseYear freshAlbum 1234 false) 4321 false)
        666 false).releaseYear = 0 ∧
     (setReleaseYear (setReleaseYear (setReleaseYear (setReleaseYear freshAlbum 1234 false)
        4321 false) 666 false) 9876 true).releaseYear = 9876) := by
  refine ⟨?_, ?_, ?_, ?_, by decide, by decide, by decide, by decide⟩
  · intro y
    by_cases hy : y = 0
    · subst hy; decide
    · simp [setReleaseYear, freshAlbum, Ne.symm hy]
  · intro a y hne hy
    have h1 : a.releaseYear ≠ y := fun h => hy h.symm
    simp [setReleaseYear, h1, hne]
  · intro y
    by_cases hy : y = 0
    · subst hy; decide
    · simp [setReleaseYear, Ne.symm hy]
  · intro a y
    simp [setReleaseYear]

/-- The executable string comparison decides the strict string
order. -/
theorem strLtB_iff (x y : String) : listLtB x.data y.data = true ↔ x < y := by
  rw [String.lt_iff_toList_lt]
  have : x.toList < y.toList ↔ List.Lex (· < ·) x.data y.data := Iff.rfl
  rw [this]
  exact listLtB_iff _ _

/-- One Nat comparison component, as a proposition. -/
theorem stepNat_iff (x y : Nat) (rest : Bool) :
    stepNat x y rest = true ↔ x < y ∨ (x = y ∧ rest = true) := by
  rcases lt_trichotomy x y with h | h | h
  · simp [stepNat, h]
  · subst h
    simp [stepNat, lt_irrefl]
  · simp [stepNat, lt_asymm h, h, ne_of_gt h]

/-- One String comparison component, as a proposition. -/
theorem stepStr_iff (x y : String) (rest : Bool) :
    stepStr x y rest = true ↔ x < y ∨ (x = y ∧ rest = true) := by
  rcases lt_trichotomy x y with h | h | h
  · have hb : listLtB x.data y.data = true := (strLtB_iff x y).mpr h
    simp [stepStr, hb, h]
  · subst h
    have hb : listLtB x.data x.data = false :=
      Bool.eq_false_iff.mpr (fun hc => absurd ((strLtB_iff x x).mp hc) (lt_irrefl x))
    simp [stepStr, hb]
  · have hb : listLtB x.data y.data = false :=
      Bool.eq_false_iff.mpr (fun hc => absurd ((strLtB_iff x y).mp hc) (lt_asymm h))
    have hb' : listLtB y.data x.data = true := (strLtB_iff y x).mpr h
    simp [stepStr, hb, hb', lt_asymm h, ne_of_gt h]

/-- The executable comparison decides the compound key order. -/
theorem trackLeB_iff (a b : TrackRow) : trackLeB a b = true ↔ trackLe a b := by
  rw [trackLeB, stepNat_iff, stepStr_iff, stepNat_iff, stepNat_iff, stepStr_iff]
  simp [trackLe, le_iff_lt_or_eq]

/-- Totality of one lexicographic component over any remainder. -/
theorem lexS_total {γ : Type} [LinearOrder γ] {p q : Prop} (x y : γ) (hpq : p ∨ q) :
    (x < y ∨ (x = y ∧ p)) ∨ (y < x ∨ (y = x ∧ q)) := by
  rcases lt_trichotomy x y with h | h | h
  · exact Or.inl (Or.inl h)
  · rcases hpq with hp | hq
    · exact Or.inl (Or.inr ⟨h, hp⟩)
    · exact Or.inr (Or.inr ⟨h.symm, hq⟩)
  · exact Or.inr (Or.inl h)

/-- Transitivity of one lexicographic component over any remainder. -/
theorem lexS_trans {γ : Type} [LinearOrder γ] {p q r : Prop} {x y z : γ}
    (h1 : x < y ∨ (x = y ∧ p)) (h2 : y < z ∨ (y = z ∧ q)) (hr : p → q → r) :
    x < z ∨ (x = z ∧ r) := by
  rcases h1 with h1 | ⟨he1, hp⟩
  · rcases h2 with h2 | ⟨he2, _⟩
    · exact Or.inl (lt_trans h1 h2)
    · exact Or.inl (he2 ▸ h1)
  · rcases h2 with h2 | ⟨he2, hq⟩
    · exact Or.inl (he1 ▸ h2)
    · exact Or.inr ⟨he1.trans he2, hr hp hq⟩

/-- The compound key order is total. -/
theorem trackLe_total (a b : TrackRow) : trackLe a b ∨ trackLe b a :=
  lexS_total _ _ (lexS_total _ _ (lexS_total _ _ (lexS_total _ _ (le_total _ _))))

/-- The compound key order is transitive. -/
theorem trackLe_trans (a b c : TrackRow) (h1 : trackLe a b) (h2 : trackLe b c) :
    trackLe a c :=
  lexS_trans h2 h1 (fun h2bc h2ab =>
    lexS_trans h2ab h2bc (fun h3ab h3bc =>
      lexS_trans h3ab h3bc (fun h4ab h4bc =>
        lexS_trans h4ab h4bc (fun h5ab h5bc => le_trans h5ab h5bc))))

/-- C2: artist.media(sort=Album, asc) is a permutation of the joined
rows sorted by the compound key (release_year desc, album title asc,
disc asc, track asc, media title asc); descending sorts by the flipped
key; on the multi-disc scenario the ascending result groups the discs
in track order and the descending result is its exact reverse. -/
theorem artist_media_album_order :
    (∀ tracks, List.Sorted trackLe (artistMediaSortAlbum tracks false) ∧
      (artistMediaSortAlbum tracks false).Perm tracks) ∧
    (∀ tracks, List.Sorted (fun a b => trackLe b a) (artistMediaSortAlbum tracks true) ∧
      (artistMediaSortAlbum tracks true).Perm tracks) ∧
    artistMediaSortAlbum multiDiscTracks false = multiDiscSorted ∧
    artistMediaSortAlbum multiDiscTracks true = multiDiscSorted.reverse := by
  haveI hta : IsTotal TrackRow (fun a b => trackLeB a b = true) :=
    ⟨fun a b => (trackLe_total a b).imp (trackLeB_iff a b).mpr (trackLeB_iff b a).mpr⟩
  haveI htra : IsTrans TrackRow (fun a b => trackLeB a b = true) :=
    ⟨fun a b c h1 h2 => (trackLeB_iff a c).mpr
      (trackLe_trans a b c ((trackLeB_iff a b).mp h1) ((trackLeB_iff b c).mp h2))⟩
  haveI htd : IsTotal TrackRow (fun a b => trackLeB b a = true) :=
    ⟨fun a b => (trackLe_total b a).imp (trackLeB_iff b a).mpr (trackLeB_iff a b).mpr⟩
  haveI htrd : IsTrans TrackRow (fun a b => trackLeB b a = true) :=
    ⟨fun a b c h1 h2 => (trackLeB_iff c a).mpr
      (trackLe_trans c b a ((trackLeB_iff c b).mp h2) ((trackLeB_iff b a).mp h1))⟩
  refine ⟨?_, ?_, by decide, by decide⟩
  · intro tracks
    constructor
    · have hs := List.sorted_insertionSort (fun a b => trackLeB a b = true) tracks
      have : artistMediaSortAlbum tracks false =
          List.insertionSort (fun a b => trackLeB a b = true) tracks := by
        simp [artistMediaSortAlbum]
      rw [this]
      exact hs.imp (fun h => (trackLeB_iff _ _).mp h)
    · have : artistMediaSortAlbum tracks false =
          List.insertionSort (fun a b => trackLeB a b = true) tracks := by
        simp [artistMediaSortAlbum]
      rw [this]
      exact List.perm_insertionSort _ _
  · intro tracks
    constructor
    · have hs := List.sorted_insertionSort (fun a b => trackLeB b a = true) tracks
      have : artistMediaSortAlbum tracks true =
          List.insertionSort (fun a b => trackLeB b a = true) tracks := by
        simp [artistMediaSortAlbum]
      rw [this]
      exact hs.imp (fun h => (trackLeB_iff _ _).mp h)
    · have : artistMediaSortAlbum tracks true =
          List.insertionSort (fun a b => trackLeB b a = true) tracks := by
        simp [artistMediaSortAlbum]
      rw [this]
      exact List.perm_insertionSort _ _

/-- C1 witness: the latching rules applied at concrete inputs. -/
theorem release_year_latching_witness :
    (setReleaseYear freshAlbum 7 false).releaseYear = 7 ∧
    setReleaseYear ⟨7, false⟩ 9 false = ⟨0, true⟩ ∧
    (setReleaseYear ⟨0, true⟩ 5 false).releaseYear = 0 ∧
    setReleaseYear ⟨0, true⟩ 11 true = ⟨11, false⟩ :=
  ⟨release_year_latching.1 7,
   release_year_latching.2.1 ⟨7, false⟩ 9 (by decide) (by decide),
   release_year_latching.2.2.1 5,
   release_year_latching.2.2.2.1 ⟨0, true⟩ 11⟩

/-- find? skips a prefix in which nothing matches. -/
theorem find?_append_none {α : Type} (p : α → Bool) (l₁ l₂ : List α)
    (h : l₁.find? p = none) : (l₁ ++ l₂).find? p = l₂.find? p := by
  induction l₁ with
  | nil => rfl
  | cons a l ih =>
    cases hpa : p a with
    | true =>
      rw [List.find?_cons_of_pos _ hpa] at h
      exact absurd h (by simp)
    | false =>
      have hna : ¬ p a = true := by simp [hpa]
      rw [List.find?_cons_of_neg _ hna] at h
      rw [List.cons_append, List.find?_cons_of_neg _ hna]
      exact ih h

/-- Any album returned by a search carries a title. -/
theorem albumSearch_title_ne_none (st : AlbumsState) (m : String → String → Bool)
    (pat : String) (b : AlbumRow) (hb : b ∈ albumSearch st m pat) : b.title ≠ none := by
  intro hnone
  rw [albumSearch] at hb
  by_cases hv : validateSearchPattern pat = false
  · rw [if_pos hv] at hb
    exact absurd hb (List.not_mem_nil b)
  · rw [if_neg hv] at hb
    have := (List.mem_filter.mp hb).2
    rw [hnone] at this
    exact Bool.false_ne_true this

/-- C8: unknownAlbum is idempotent — the second request returns the
same album row (in particular the same id) and leaves the persisted
state unchanged, so the designated album survives any cache-clearing
reload; and that album, having a NULL title, never appears in
search_albums results. -/
theorem unknown_album_isolated (s : AlbumsState) (artistId : Nat) :
    unknownAlbum (unknownAlbum s artistId).2 artistId =
      ((unknownAlbum s artistId).1, (unknownAlbum s artistId).2) ∧
    (unknownAlbum (unknownAlbum s artistId).2 artistId).1.id =
      (unknownAlbum s artistId).1.id ∧
    (unknownAlbum s artistId).1.title = none ∧
    (∀ matcher pattern,
      (unknownAlbum s artistId).1 ∉
        albumSearch (unknownAlbum s artistId).2 matcher pattern) := by
  cases hfind : s.albums.find? (isUnknownAlbumOf artistId) with
  | some a =>
    have hpred : isUnknownAlbumOf artistId a = true := List.find?_some hfind
    have htitle : a.title = none :=
      of_decide_eq_true (Bool.and_eq_true_iff.mp hpred).2
    have hcall : unknownAlbum s artistId = (a, s) := by
      rw [unknownAlbum, hfind]
    rw [hcall]
    refine ⟨?_, ?_, htitle, ?_⟩
    · rw [hcall]
    · rw [hcall]
    · intro matcher pattern hmem
      exact albumSearch_title_ne_none _ _ _ _ hmem htitle
  | none =>
    have hpred : isUnknownAlbumOf artistId
        (⟨s.nextAlbumId, none, some artistId⟩ : AlbumRow) = true := by
      rw [isUnknownAlbumOf]
      simp
    have hfind2 : (s.albums ++ [(⟨s.nextAlbumId, none, some artistId⟩ : AlbumRow)]).find?
        (isUnknownAlbumOf artistId) =
        some (⟨s.nextAlbumId, none, some artistId⟩ : AlbumRow) := by
      rw [find?_append_none _ _ _ hfind, List.find?_cons_of_pos _ hpred]
    have hcall : unknownAlbum s artistId =
        ((⟨s.nextAlbumId, none, some artistId⟩ : AlbumRow),
         ⟨s.albums ++ [⟨s.nextAlbumId, none, some artistId⟩], s.nextAlbumId + 1⟩) := by
      rw [unknownAlbum, hfind]
    have hcall2 : unknownAlbum
        (⟨s.albums ++ [⟨s.nextAlbumId, none, some artistId⟩], s.nextAlbumId + 1⟩ : AlbumsState)
        artistId =
        ((⟨s.nextAlbumId, none, some artistId⟩ : AlbumRow),
         ⟨s.albums ++ [⟨s.nextAlbumId, none, some artistId⟩], s.nextAlbumId + 1⟩) := by
      rw [unknownAlbum]
      rw [show (⟨s.albums ++ [⟨s.nextAlbumId, none, some artistId⟩], s.nextAlbumId + 1⟩ :
        AlbumsState).albums = s.albums ++ [⟨s.nextAlbumId, none, some artistId⟩] from rfl]
      rw [hfind2]
    rw [hcall, hcall2]
    refine ⟨rfl, rfl, rfl, ?_⟩
    intro matcher pattern hmem
    exact albumSearch_title_ne_none _ _ _ _ hmem rfl

/-- C8 witness: the unknown album of artist 7 on an empty catalog,
queried twice, and excluded from a search whose matcher accepts
everything. -/
theorem unknown_album_isolated_witness :
    unknownAlbum (unknownAlbum ⟨[], 1⟩ 7).2 7 =
      ((unknownAlbum (⟨[], 1⟩ : AlbumsState) 7).1, (unknownAlbum (⟨[], 1⟩ : AlbumsState) 7).2) ∧
    (unknownAlbum (⟨[], 1⟩ : AlbumsState) 7).1 ∉
      albumSearch (unknownAlbum (⟨[], 1⟩ : AlbumsState) 7).2 (fun _ _ => true) "otters" :=
  ⟨(unknown_album_isolated ⟨[], 1⟩ 7).1,
   (unknown_album_isolated ⟨[], 1⟩ 7).2.2.2 (fun _ _ => true) "otters"⟩

/-- Every public operation preserves the presence of the two well-known
artist rows. -/
theorem applyOp_preserves (s : CatalogState) (op : CatalogOp)
    (h : wellKnownPresent s) : wellKnownPresent (applyOp s op) := by
  obtain ⟨⟨a1, ha1, hid1, hn1⟩, ⟨a2, ha2, hid2, hn2⟩⟩ := h
  cases op with
  | createArtist a =>
    exact ⟨⟨a1, List.mem_append_left _ ha1, hid1, hn1⟩,
           ⟨a2, List.mem_append_left _ ha2, hid2, hn2⟩⟩
  | setArtistCounts id na nt =>
    constructor
    · refine ⟨if a1.id = id then { a1 with nbAlbums := na, nbTracks := nt } else a1,
        List.mem_map_of_mem _ ha1, ?_, ?_⟩
      · by_cases hc : a1.id = id
        · rw [if_pos hc]; exact hid1
        · rw [if_neg hc]; exact hid1
      · by_cases hc : a1.id = id
        · rw [if_pos hc]; exact hn1
        · rw [if_neg hc]; exact hn1
    · refine ⟨if a2.id = id then { a2 with nbAlbums := na, nbTracks := nt } else a2,
        List.mem_map_of_mem _ ha2, ?_, ?_⟩
      · by_cases hc : a2.id = id
        · rw [if_pos hc]; exact hid2
        · rw [if_neg hc]; exact hid2
      · by_cases hc : a2.id = id
        · rw [if_pos hc]; exact hn2
        · rw [if_neg hc]; exact hn2
  | deleteTrigger =>
    exact ⟨⟨a1, List.mem_filter.mpr ⟨ha1, by simp [hid1]⟩, hid1, hn1⟩,
           ⟨a2, List.mem_filter.mpr ⟨ha2, by simp [hid2]⟩, hid2, hn2⟩⟩
  | addMedia id =>
    exact ⟨⟨a1, ha1, hid1, hn1⟩, ⟨a2, ha2, hid2, hn2⟩⟩
  | deleteMedia id =>
    exact ⟨⟨a1, List.mem_filter.mpr ⟨ha1, by simp [hid1]⟩, hid1, hn1⟩,
           ⟨a2, List.mem_filter.mpr ⟨ha2, by simp [hid2]⟩, hid2, hn2⟩⟩
  | forceRescan =>
    exact ⟨⟨⟨1, "Unknown Artist", 0, 0⟩, List.mem_cons_self _ _, rfl, rfl⟩,
           ⟨⟨2, "Various Artists", 0, 0⟩,
             List.mem_cons_of_mem _ (List.mem_cons_self _ _), rfl, rfl⟩⟩
  | reinit =>
    exact ⟨⟨⟨1, "Unknown Artist", 0, 0⟩, List.mem_cons_self _ _, rfl, rfl⟩,
           ⟨⟨2, "Various Artists", 0, 0⟩,
             List.mem_cons_of_mem _ (List.mem_cons_self _ _), rfl, rfl⟩⟩

/-- C6: the two well-known artists exist right after the tables are
created, and every sequence of public catalog operations — including
forceRescan, which deletes all Artist rows but recreates the defaults
inside the same transaction, and the auto-delete trigger, which spares
them — preserves their presence. -/
theorem well_known_artists_invariant :
    wellKnownPresent createAllTables ∧
    (∀ ops s, wellKnownPresent s → wellKnownPresent (applyOps s ops)) := by
  constructor
  · exact ⟨⟨⟨1, "Unknown Artist", 0, 0⟩, by simp [createAllTables, defaultArtists], rfl, rfl⟩,
           ⟨⟨2, "Various Artists", 0, 0⟩, by simp [createAllTables, defaultArtists], rfl, rfl⟩⟩
  · intro ops
    induction ops with
    | nil => intro s h; exact h
    | cons op rest ih =>
      intro s h
      exact ih (applyOp s op) (applyOp_preserves s op h)

/-- C6 witness: the invariant evaluated across a concrete operation
sequence ending in a forced rescan. -/
theorem well_known_artists_invariant_witness :
    wellKnownPresent (applyOps createAllTables
      [CatalogOp.createArtist ⟨5, "x", 0, 0⟩, CatalogOp.deleteTrigger,
       CatalogOp.forceRescan, CatalogOp.deleteTrigger]) :=
  well_known_artists_invariant.2 _ createAllTables well_known_artists_invariant.1

/-- C7: addMedia and addP2PMedia are atomic — a null result leaves the
database exactly as it was (the uncommitted transaction rolls back),
and a non-null result returns a media row whose committed state holds
the row and its Main file. -/
theorem add_media_atomic (db : MediaDb) (mrl : String) (createOk addOk : Bool)
    (parentMediaId : Int) (mtype : Nat) (title : String) :
    ((addMedia db mrl createOk addOk).1 = none →
      (addMedia db mrl createOk addOk).2 = db) ∧
    (∀ m, (addMedia db mrl createOk addOk).1 = some m →
      m ∈ (addMedia db mrl createOk addOk).2.media ∧
      ∃ f ∈ (addMedia db mrl createOk addOk).2.files,
        f.mediaId = m.id ∧ f.ftype = FileType.main) ∧
    ((addP2PMedia db parentMediaId mtype title mrl createOk addOk).1 = none →
      (addP2PMedia db parentMediaId mtype title mrl createOk addOk).2 = db) ∧
    (∀ m, (addP2PMedia db parentMediaId mtype title mrl createOk addOk).1 = some m →
      m ∈ (addP2PMedia db parentMediaId mtype title mrl createOk addOk).2.media ∧
      ∃ f ∈ (addP2PMedia db parentMediaId mtype title mrl createOk addOk).2.files,
        f.mediaId = m.id ∧ f.ftype = FileType.main) := by
  cases createOk with
  | false =>
    refine ⟨fun _ => rfl, ?_, fun _ => rfl, ?_⟩ <;>
      (intro m hm; exact absurd hm (by simp [addMedia, addP2PMedia, mediaCreate]))
  | true =>
    cases addOk with
    | false =>
      refine ⟨fun _ => rfl, ?_, fun _ => rfl, ?_⟩ <;>
        (intro m hm;
         exact absurd hm (by simp [addMedia, addP2PMedia, mediaCreate, addExternalMrl]))
    | true =>
      refine ⟨?_, ?_, ?_, ?_⟩
      · intro hcon
        exact absurd hcon (by simp [addMedia, mediaCreate, addExternalMrl])
      · intro m hm
        have hm' : m = (⟨db.nextMediaId, externalType, fileName mrl, none, false⟩ : MediaRow) := by
          have : (addMedia db mrl true true).1 =
              some ⟨db.nextMediaId, externalType, fileName mrl, none, false⟩ := rfl
          rw [this] at hm
          exact (Option.some_inj.mp hm).symm
        subst hm'
        constructor
        · exact List.mem_append_right _ (List.mem_singleton.mpr rfl)
        · refine ⟨⟨db.nextFileId, db.nextMediaId, mrl, FileType.main, true⟩,
            List.mem_append_right _ (List.mem_singleton.mpr rfl), rfl, rfl⟩
      · intro hcon
        exact absurd hcon (by simp [addP2PMedia, mediaCreate, addExternalMrl])
      · intro m hm
        have hm' : m = (⟨db.nextMediaId, mtype, title, some parentMediaId, true⟩ : MediaRow) := by
          have : (addP2PMedia db parentMediaId mtype title mrl true true).1 =
              some ⟨db.nextMediaId, mtype, title, some parentMediaId, true⟩ := rfl
          rw [this] at hm
          exact (Option.some_inj.mp hm).symm
        subst hm'
        constructor
        · have heq : (addP2PMedia db parentMediaId mtype title mrl true true).2.media =
              (db.media ++ [(⟨db.nextMediaId, mtype, title, none, false⟩ : MediaRow)]).map
                (fun x : MediaRow => if x.id = db.nextMediaId
                  then (⟨db.nextMediaId, mtype, title, some parentMediaId, true⟩ : MediaRow)
                  else x) := rfl
          rw [heq]
          refine List.mem_map.mpr ⟨⟨db.nextMediaId, mtype, title, none, false⟩,
            List.mem_append_right _ (List.mem_singleton.mpr rfl), ?_⟩
          simp
        · refine ⟨⟨db.nextFileId, db.nextMediaId, mrl, FileType.main, true⟩,
            List.mem_append_right _ (List.mem_singleton.mpr rfl), rfl, rfl⟩

/-- C7 witness: both entry points evaluated on a concrete database, in
a failing and in a succeeding run. -/
theorem add_media_atomic_witness :
    (addMedia emptyMediaDb "file:///a/b.mp3" false true).2 = emptyMediaDb ∧
    (addP2PMedia emptyMediaDb 4 1 "t" "magnet:x" true false).2 = emptyMediaDb ∧
    ((⟨0, externalType, "b.mp3", none, false⟩ : MediaRow) ∈
      (addMedia emptyMediaDb "file:///a/b.mp3" true true).2.media ∧
      ∃ f ∈ (addMedia emptyMediaDb "file:///a/b.mp3" true true).2.files,
        f.mediaId = 0 ∧ f.ftype = FileType.main) :=
  ⟨(add_media_atomic emptyMediaDb "file:///a/b.mp3" false true 0 0 "").1 rfl,
   (add_media_atomic emptyMediaDb "magnet:x" true false 4 1 "t").2.2.1 rfl,
   (add_media_atomic emptyMediaDb "file:///a/b.mp3" true true 0 0 "").2.1 _ rfl⟩

/-- When the first file-supporting factory resolves the device as
fs-absent, the plug loop marks the catalog row present (when one
exists) and stops. -/
theorem pluggedLoop_first (fs : List FsFactoryM) (f : FsFactoryM)
    (hff : firstFileFactory fs = some f) (s : DeviceState) (uuid : String)
    (hdev : f.device uuid = some false) (k : Bool) :
    pluggedLoop fs s uuid k =
      Except.ok (if k then setDevicePresent s uuid true else s) := by
  induction fs with
  | nil => exact absurd hff (by rw [firstFileFactory]; simp)
  | cons f0 rest ih =>
    by_cases hs : f0.supportsFileMrl = true
    · have : f0 = f := by
        rw [firstFileFactory, List.find?_cons_of_pos _ hs] at hff
        exact Option.some_inj.mp hff
      subst this
      rw [pluggedLoop, if_pos hs, hdev]
      simp
    · have hff' : firstFileFactory rest = some f := by
        rw [firstFileFactory, List.find?_cons_of_neg _ hs] at hff
        exact hff
      rw [pluggedLoop, if_neg hs]
      exact ih hff'

/-- C9 (amended): onDevicePlugged returns true exactly when no Device
row with the uuid existed before the call; when a row exists the call
returns false, and — provided the first file-supporting factory
resolves the device (fs-side absent, so the plug assert passes) — the
row's is_present flag is set to 1.  When the factory cannot resolve
the device, the catalog is refreshed from the factory view instead. -/
theorem on_device_plugged_amended :
    (∀ fs s uuid b s', onDevicePlugged fs s uuid = Except.ok (b, s') →
      (b = true ↔ deviceFromUuid s uuid = none)) ∧
    (∀ fs f s uuid d, firstFileFactory fs = some f → f.device uuid = some false →
      deviceFromUuid s uuid = some d →
      onDevicePlugged fs s uuid =
        Except.ok (false, setDevicePresent s uuid true)) := by
  constructor
  · intro fs s uuid b s' h
    rw [onDevicePlugged] at h
    cases hp : pluggedLoop fs s uuid (deviceFromUuid s uuid).isSome with
    | error e => rw [hp] at h; exact absurd h (by simp)
    | ok s'' =>
      rw [hp] at h
      have hb : b = (deviceFromUuid s uuid).isNone := by
        have h' := congrArg Prod.fst (Except.ok.inj h)
        simp at h'
        exact h'.symm
      rw [hb]
      exact ⟨fun hh => Option.isNone_iff_eq_none.mp hh,
             fun hh => Option.isNone_iff_eq_none.mpr hh⟩
  · intro fs f s uuid d hff hdev hknown
    rw [onDevicePlugged, pluggedLoop_first fs f hff s uuid hdev, hknown]
    rw [show ((some d : Option DeviceRow).isSome) = true from rfl]
    rw [show ((some d : Option DeviceRow).isNone) = false from rfl]
    simp

/-- C9 amended witness: an unknown uuid on an empty catalog returns
true; a known absent device is marked present. -/
theorem on_device_plugged_amended_witness :
    (true = true ↔ deviceFromUuid ⟨[]⟩ "u" = none) ∧
    onDevicePlugged [plugFactoryKnown] plugStateKnown "usb-1" =
      Except.ok (false, setDevicePresent plugStateKnown "usb-1" true) :=
  ⟨on_device_plugged_amended.1 [] ⟨[]⟩ "u" true ⟨[]⟩ rfl,
   on_device_plugged_amended.2 [plugFactoryKnown] plugFactoryKnown plugStateKnown
     "usb-1" ⟨"usb-1", true, false⟩ rfl rfl rfl⟩

/-- C9 counterexample: a Device row for "usb-1" exists (present), yet
when the file factory cannot resolve the device, onDevicePlugged
returns false and leaves the row ABSENT (refreshDevices set it to 0),
refuting "when a Device row already exists, the call returns false and
sets that device's is_present flag to 1" as a statement about every
call. -/
theorem on_device_plugged_counterexample :
    deviceFromUuid cexState "usb-1" = some ⟨"usb-1", true, true⟩ ∧
    onDevicePlugged [cexFactory] cexState "usb-1" =
      Except.ok (false, DeviceState.mk [⟨"usb-1", true, false⟩]) ∧
    ¬ (∀ d ∈ (DeviceState.mk [⟨"usb-1", true, false⟩]).devices,
        d.uuid = "usb-1" → d.isPresent = true) := by
  refine ⟨rfl, rfl, ?_⟩
  intro hall
  have := hall ⟨"usb-1", true, false⟩ (List.mem_singleton.mpr rfl) rfl
  exact Bool.false_ne_true this

/-- C10: the code evaluates device->isRemovable() in an assert before
the null check, so an unplug callback for a uuid with no Device row
dereferences the absent record instead of reaching the ignore branch:
the embedding aborts with nullDeref on concrete unknown uuids. -/
theorem unplug_unknown_device_null_deref :
    onDeviceUnplugged [] ⟨[]⟩ "usb-1" = Except.error AbortReason.nullDeref ∧
    onDeviceUnplugged [cexFactory] ⟨[⟨"other-device", true, true⟩]⟩ "usb-1" =
      Except.error AbortReason.nullDeref :=
  ⟨rfl, rfl⟩

end MediaLib
